import Mathlib

/-!
Verification of the task-CRUD lambda (src/lambda_function.py) against its
natural-language specification.

The Python module is shallowly embedded: JSON values become the inductive
`Json`; Python truthiness becomes `Json.truthy`; the DynamoDB table handle
becomes an abstract `TableApi` record of primitives returning `Except String`
(an exception raised by a primitive is an `Except.error` carrying its
message), instantiated by the concrete in-memory `dynamoTable` whose
behaviour follows the Record Store Adapter contract of the spec (the real
store is an external collaborator, absent from the repository).  Each Python
function (`response`, `create_task`, `get_task`, `update_task`,
`delete_task`, `get_tasks_by_date`, `lambda_handler`) is translated
line-by-line below.
-/

namespace CrudM3

/-- A JSON value as produced by `json.loads`.  Numbers are modelled as
integers (no claim involves non-integral numbers, and the `Decimal`
conversion of the Python encoder is the identity on integers). -/
inductive Json where
  | null : Json
  | bool (b : Bool) : Json
  | num (n : Int) : Json
  | str (s : String) : Json
  | arr (elems : List Json) : Json
  | obj (fields : List (String × Json)) : Json

/-- Python truthiness (`bool(x)`) of a JSON-derived value: `None`, `False`,
`0`, `""`, `[]` and `{}` (written here as the empty object) are falsy. -/
def Json.truthy : Json → Bool
  | .null => false
  | .bool b => b
  | .num n => n != 0
  | .str s => s != ""
  | .arr l => !l.isEmpty
  | .obj l => !l.isEmpty

/-- Serialization of a string the way `json.dumps` renders it (quote and
backslash escaped; further control/non-ASCII escaping is irrelevant to every
claim and omitted). -/
def jsonEscape (s : String) : String :=
  s.foldl (fun acc c =>
    if c = '"' then acc ++ "\\\""
    else if c = '\\' then acc ++ "\\\\"
    else acc.push c) ""

mutual

/-- Models `json.dumps(v, cls=DecimalEncoder)` with the default separators
`", "` and `": "`. -/
def Json.dumps : Json → String
  | .null => "null"
  | .bool true => "true"
  | .bool false => "false"
  | .num n => toString n
  | .str s => "\"" ++ jsonEscape s ++ "\""
  | .arr l => "[" ++ Json.dumpsList l ++ "]"
  | .obj l => "\x7b" ++ Json.dumpsObj l ++ "\x7d"

/-- Comma-separated serialization of array elements. -/
def Json.dumpsList : List Json → String
  | [] => ""
  | [x] => x.dumps
  | x :: y :: xs => x.dumps ++ ", " ++ Json.dumpsList (y :: xs)

/-- Comma-separated serialization of object members. -/
def Json.dumpsObj : List (String × Json) → String
  | [] => ""
  | [kv] => "\"" ++ jsonEscape kv.1 ++ "\": " ++ kv.2.dumps
  | kv :: kw :: xs =>
      "\"" ++ jsonEscape kv.1 ++ "\": " ++ kv.2.dumps ++ ", " ++ Json.dumpsObj (kw :: xs)

end

/-- A parsed JSON request body: the Python `dict` that `json.loads` yields
on an object literal, as an association list (keys unique, as in any dict). -/
abbrev Body := List (String × Json)

/-- `body.get(k)` on a dict: the value at `k`, or `None` when absent. -/
def getKey (body : Body) (k : String) : Option Json :=
  (List.find? (fun kv => kv.1 = k) body).map (fun kv => kv.2)

/-- Truthiness of the result of a `.get` call: `None` is falsy, otherwise
the value's own truthiness decides (`not body.get(k)`). -/
def truthyOpt : Option Json → Bool
  | none => false
  | some v => v.truthy

/-- The idiom `x or ""` applied to an optional JSON value. -/
def orEmpty : Option Json → Json
  | none => .str ""
  | some v => if v.truthy then v else .str ""

/-- A persisted task record: the item dict `{id, title, description, date}`
built by `create_task` (values are whatever JSON the body supplied). -/
structure Task where
  id : String
  title : Json
  description : Json
  date : Json

/-- The item dict of a task in its insertion order `{id, title, description,
date}`, as serialized into response bodies. -/
def taskToJson (t : Task) : Json :=
  .obj [("id", .str t.id), ("title", t.title),
        ("description", t.description), ("date", t.date)]

/-- The in-memory contents of the `Tasks` table, keyed by `id`. -/
abbrev Store := List Task

/-- `get_item(Key={"id": id})`: the record with the given key, if any. -/
def findTask (st : Store) (id : String) : Option Task :=
  List.find? (fun t => t.id = id) st

/-- `put_item`: full insert-or-replace on the key `id`. -/
def putItem (st : Store) (t : Task) : Store :=
  if st.any (fun u => u.id = t.id) then
    st.map (fun u => if u.id = t.id then t else u)
  else
    st ++ [t]

/-- `delete_item(Key={"id": id})`: removes the record with the key. -/
def deleteItem (st : Store) (id : String) : Store :=
  st.filter (fun t => ¬ t.id = id)

/-- One `field = value` assignment of an update expression applied to a
record: only `title`, `description` and `date` ever occur as fields. -/
def applyField (t : Task) (kv : String × Json) : Task :=
  if kv.1 = "title" then { t with title := kv.2 }
  else if kv.1 = "description" then { t with description := kv.2 }
  else if kv.1 = "date" then { t with date := kv.2 }
  else t

/-- Modelled from the spec: `updateFields` "applies only the given field
assignments; does not alter unspecified fields". -/
def applyFields (t : Task) (fields : List (String × Json)) : Task :=
  fields.foldl applyField t

/-- The DynamoDB comparison `Attr("date").eq(d)` for a string `d`: true
exactly when the attribute is the equal string (typed equality). -/
def jsonEqStr : Json → String → Bool
  | .str s, d => s = d
  | _, _ => false

/-- The table handle as seen by the operations: each primitive may raise,
returning `Except.error` with the exception's message.  `σ` is the state of
the external store. -/
structure TableApi (σ : Type) where
  get_item : σ → String → Except String (Option Task)
  put_item : σ → Task → Except String σ
  update_item : σ → String → List (String × Json) → Except String (Task × σ)
  delete_item : σ → String → Except String σ
  scan : σ → Except String (List Task)
  scanByDate : σ → String → Except String (List Task)

/-- Modelled from the spec: the Record Store Adapter contract of §4.1 over
the in-memory `Store` (the real DynamoDB client is an external collaborator
absent from the repository).  `update_item` with `ReturnValues="ALL_NEW"`
applies only the given assignments and yields the full updated record, and
"fails distinguishably if the key does not exist"; the other primitives
are total. -/
def dynamoTable : TableApi Store where
  get_item st id := .ok (findTask st id)
  put_item st t := .ok (putItem st t)
  update_item st id fields :=
    match findTask st id with
    | none => .error "The provided key element does not match the schema"
    | some t =>
        let t2 := applyFields t fields
        .ok (t2, putItem st t2)
  delete_item st id := .ok (deleteItem st id)
  scan st := .ok st
  scanByDate st d := .ok (st.filter (fun t => jsonEqStr t.date d))

/-- The response envelope `{statusCode, headers, body}` with `body` already
serialized by `json.dumps`. -/
structure Resp where
  statusCode : Nat
  headers : List (String × String)
  body : String
deriving DecidableEq

/-- The fixed header dict of every response. -/
def stdHeaders : List (String × String) :=
  [("Content-Type", "application/json"), ("Access-Control-Allow-Origin", "*")]

/-- The `response` builder (lines 18-26): status, fixed headers, and the
JSON serialization of the value — for every status code alike. -/
def response (status_code : Nat) (body : Json) : Resp :=
  { statusCode := status_code, headers := stdHeaders, body := body.dumps }

/-- The `item` dict built by `create_task` (lines 39-44).  `create_task`
only builds it when `title` and `date` are truthy, hence present, so the
`getD .null` defaults are never reached there. -/
def buildItem (task_id : String) (body : Body) : Task :=
  { id := task_id,
    title := (getKey body "title").getD .null,
    description := orEmpty (getKey body "description"),
    date := (getKey body "date").getD .null }

/-- `create_task` (lines 29-47): `task_id` stands for the freshly generated
`str(uuid.uuid4())`.  Requires truthy `title` and `date`, defaults
`description` with `or ""`, puts the item and returns it with 201. -/
def create_task {σ : Type} (table : TableApi σ) (task_id : String)
    (body : Body) (st : σ) : Except String (Resp × σ) :=
  if truthyOpt (getKey body "title") = false ∨ truthyOpt (getKey body "date") = false then
    .ok (response 400 (.obj [("message",
      .str "Campos \x27title\x27 e \x27date\x27 são obrigatórios.")]), st)
  else
    match table.put_item st (buildItem task_id body) with
    | .error e => .error e
    | .ok st2 => .ok (response 201 (taskToJson (buildItem task_id body)), st2)

/-- `get_task` (lines 50-57): 404 when the item is absent, otherwise 200
with the record. -/
def get_task {σ : Type} (table : TableApi σ) (task_id : String) (st : σ) :
    Except String (Resp × σ) :=
  match table.get_item st task_id with
  | .error e => .error e
  | .ok none => .ok (response 404 (.obj [("message", .str "Tarefa não encontrada.")]), st)
  | .ok (some item) => .ok (response 200 (taskToJson item), st)

/-- The update field map of `update_task` (lines 61-79): one assignment per
key of `title`, `description`, `date` present in the body (for a dict,
`"k" in body` holds exactly when `getKey body k` is `some`). -/
def updateFieldMap (body : Body) : List (String × Json) :=
  (match getKey body "title" with
   | some v => [("title", v)]
   | none => []) ++
  (match getKey body "description" with
   | some v => [("description", v)]
   | none => []) ++
  (match getKey body "date" with
   | some v => [("date", v)]
   | none => [])

/-- `update_task` (lines 60-91): 400 when no field is given; otherwise
`update_item`, whose exception is caught and turned into 500 with the
message, and whose `ALL_NEW` attributes are returned with 200. -/
def update_task {σ : Type} (table : TableApi σ) (task_id : String)
    (body : Body) (st : σ) : Except String (Resp × σ) :=
  if (updateFieldMap body).isEmpty then
    .ok (response 400 (.obj [("message", .str "Nenhum campo para atualizar.")]), st)
  else
    match table.update_item st task_id (updateFieldMap body) with
    | .error e =>
        .ok (response 500 (.obj [("message", .str ("Erro ao atualizar: " ++ e))]), st)
    | .ok (t2, st2) => .ok (response 200 (taskToJson t2), st2)

/-- `delete_task` (lines 94-100): pre-check with `get_item`; 404 when
absent, otherwise `delete_item` and 204 with the empty dict `{}` as body. -/
def delete_task {σ : Type} (table : TableApi σ) (task_id : String) (st : σ) :
    Except String (Resp × σ) :=
  match table.get_item st task_id with
  | .error e => .error e
  | .ok none => .ok (response 404 (.obj [("message", .str "Tarefa não encontrada.")]), st)
  | .ok (some _) =>
      match table.delete_item st task_id with
      | .error e => .error e
      | .ok st2 => .ok (response 204 (.obj []), st2)

/-- `query_params.get(k)` on the (string-valued) query dict. -/
def lookupStr (l : List (String × String)) (k : String) : Option String :=
  (List.find? (fun kv => kv.1 = k) l).map (fun kv => kv.2)

/-- `"k" in query_params`. -/
def hasKeyStr (l : List (String × String)) (k : String) : Bool :=
  l.any (fun kv => kv.1 = k)

/-- Truthiness of an optional string: `None` and `""` are falsy. -/
def truthyStrOpt : Option String → Bool
  | none => false
  | some s => s != ""

/-- The local `date` of `get_tasks_by_date` (lines 104-106): it stays
`None` when the dict is falsy (empty), else it is the `.get` lookup. -/
def queryDate (query_params : List (String × String)) : Option String :=
  if query_params.isEmpty then none else lookupStr query_params "date"

/-- `get_tasks_by_date` (lines 103-117): a falsy `date` (absent or `""`)
gives 400, else a filtered scan gives 200. -/
def get_tasks_by_date {σ : Type} (table : TableApi σ)
    (query_params : List (String × String)) (st : σ) : Except String (Resp × σ) :=
  if truthyStrOpt (queryDate query_params) = false then
    .ok (response 400 (.obj [("message",
      .str "Parâmetro \x27date\x27 é obrigatório. Ex: /tasks?date=2025-12-04")]), st)
  else
    match table.scanByDate st ((queryDate query_params).getD "") with
    | .error e => .error e
    | .ok items => .ok (response 200 (.arr (items.map taskToJson)), st)

/-- The incoming Lambda event: the fields of the dict that
`lambda_handler` reads. -/
structure Event where
  routeKey : Option String
  pathParameters : Option (List (String × String))
  queryStringParameters : Option (List (String × String))
  body : Option String

/-- The try-block of `lambda_handler` (lines 134-169): route comparison on
`routeKey`, `id` extraction with truthiness check, and dispatch.  `freshId`
stands for the uuid that `create_task` would generate. -/
def dispatch {σ : Type} (table : TableApi σ) (freshId : String)
    (route_key : Option String) (path_params : List (String × String))
    (query_params : List (String × String)) (body : Body) (st : σ) :
    Except String (Resp × σ) :=
  if route_key = some "POST /tasks" then
    create_task table freshId body st
  else if route_key = some "GET /tasks/\x7bid\x7d" then
    match lookupStr path_params "id" with
    | none => .ok (response 400 (.obj [("message", .str "Parâmetro \x27id\x27 é obrigatório.")]), st)
    | some task_id =>
        if task_id = "" then
          .ok (response 400 (.obj [("message", .str "Parâmetro \x27id\x27 é obrigatório.")]), st)
        else get_task table task_id st
  else if route_key = some "PUT /tasks/\x7bid\x7d" then
    match lookupStr path_params "id" with
    | none => .ok (response 400 (.obj [("message", .str "Parâmetro \x27id\x27 é obrigatório.")]), st)
    | some task_id =>
        if task_id = "" then
          .ok (response 400 (.obj [("message", .str "Parâmetro \x27id\x27 é obrigatório.")]), st)
        else update_task table task_id body st
  else if route_key = some "DELETE /tasks/\x7bid\x7d" then
    match lookupStr path_params "id" with
    | none => .ok (response 400 (.obj [("message", .str "Parâmetro \x27id\x27 é obrigatório.")]), st)
    | some task_id =>
        if task_id = "" then
          .ok (response 400 (.obj [("message", .str "Parâmetro \x27id\x27 é obrigatório.")]), st)
        else delete_task table task_id st
  else if route_key = some "GET /tasks" then
    if hasKeyStr query_params "date" then
      get_tasks_by_date table query_params st
    else
      match table.scan st with
      | .error e => .error e
      | .ok items => .ok (response 200 (.arr (items.map taskToJson)), st)
  else
    .ok (response 404 (.obj [("message", .str "Rota não encontrada.")]), st)

/-- The body parsing of `lambda_handler` (lines 127-132): `json.loads` is
the external `jsonLoads`, failing with `none`; a falsy body string (absent
or `""`) or a parse failure leaves the empty dict. -/
def parseBody (jsonLoads : String → Option Body) (event : Event) : Body :=
  match event.body with
  | none => []
  | some s => if s = "" then [] else (jsonLoads s).getD []

/-- `lambda_handler` (lines 120-173): parameter extraction with `or {}`
defaults, body parsing, dispatch, and the catch-all turning any exception
into a 500 response. -/
def lambda_handler {σ : Type} (table : TableApi σ)
    (jsonLoads : String → Option Body) (freshId : String) (event : Event)
    (st : σ) : Resp × σ :=
  match dispatch table freshId event.routeKey (event.pathParameters.getD [])
      (event.queryStringParameters.getD []) (parseBody jsonLoads event) st with
  | .ok r => r
  | .error e => (response 500 (.obj [("message", .str ("Erro interno: " ++ e))]), st)

/-! Helper definitions and lemmas shared by the theorems below. -/

/-- The error payload `{"message": s}` of the Python handlers. -/
def msgObj (s : String) : Json :=
  .obj [("message", .str s)]

/-- A sample persisted task used to instantiate theorems concretely. -/
def sampleTask : Task :=
  { id := "t1", title := .str "Buy milk", description := .str "", date := .str "2025-12-04" }

/-- A second sample task with a different id and date. -/
def sampleTask2 : Task :=
  { id := "t2", title := .str "Walk dog", description := .str "2L", date := .str "2025-12-05" }

/-- Membership in the store after `deleteItem`: everything but the key. -/
lemma mem_deleteItem (st : Store) (id : String) (u : Task) :
    u ∈ deleteItem st id ↔ u ∈ st ∧ u.id ≠ id := by
  simp [deleteItem, List.mem_filter]

/-- Deleting a key removes it: a lookup after `deleteItem` finds nothing. -/
lemma findTask_deleteItem (st : Store) (id : String) :
    findTask (deleteItem st id) id = none := by
  rw [findTask, List.find?_eq_none]
  intro t ht
  have h2 := ((mem_deleteItem st id t).mp ht).2
  simp [h2]

/-- Inserting a fresh key appends the record. -/
lemma putItem_fresh (st : Store) (t : Task) (h : findTask st t.id = none) :
    putItem st t = st ++ [t] := by
  have hany : st.any (fun u => u.id = t.id) = false := by
    rw [List.any_eq_false]
    intro u hu
    simp only [decide_eq_true_eq]
    intro he
    have := List.find?_eq_none.mp h u hu
    simp [he] at this
  simp [putItem, hany]

/-- A successful string lookup means the key is present and the dict is
nonempty. -/
lemma lookupStr_some_facts (l : List (String × String)) (k d : String)
    (h : lookupStr l k = some d) : hasKeyStr l k = true ∧ l.isEmpty = false := by
  obtain ⟨kv, hfind, hval⟩ := Option.map_eq_some.mp h
  have hmem := List.mem_of_find?_eq_some hfind
  have hp := List.find?_some hfind
  constructor
  · exact List.any_eq_true.mpr ⟨kv, hmem, hp⟩
  · cases l with
    | nil => cases hmem
    | cons a tl => rfl

/-! The claims. -/

/-- C7: `get_task` returns 404 with the not-found message exactly when the
id is absent from the store, 200 with the stored record exactly when it is
present, and never any other status. -/
theorem get_task_spec (id : String) (st : Store) :
    (findTask st id = none →
      get_task dynamoTable id st =
        .ok (response 404 (msgObj "Tarefa não encontrada."), st)) ∧
    (∀ t, findTask st id = some t →
      get_task dynamoTable id st = .ok (response 200 (taskToJson t), st)) ∧
    (∀ r st2, get_task dynamoTable id st = .ok (r, st2) →
      r.statusCode = 404 ∨ r.statusCode = 200) := by
  refine ⟨?_, ?_, ?_⟩
  · intro h
    simp [get_task, dynamoTable, h, msgObj]
  · intro t h
    simp [get_task, dynamoTable, h]
  · intro r st2 h
    cases hf : findTask st id with
    | none =>
        simp [get_task, dynamoTable, hf] at h
        left; rw [← h.1]; rfl
    | some t =>
        simp [get_task, dynamoTable, hf] at h
        right; rw [← h.1]; rfl

/-- C7 witness: on a one-task store, `get_task` of the present id yields
200 with the record, and of an absent id yields 404. -/
theorem get_task_spec_witness :
    get_task dynamoTable "t1" [sampleTask] =
      .ok (response 200 (taskToJson sampleTask), [sampleTask]) ∧
    get_task dynamoTable "zz" [sampleTask] =
      .ok (response 404 (msgObj "Tarefa não encontrada."), [sampleTask]) :=
  ⟨(get_task_spec "t1" [sampleTask]).2.1 sampleTask rfl,
   (get_task_spec "zz" [sampleTask]).1 rfl⟩

/-- C4: `delete_task` pre-checks existence: an absent id yields 404 with
the store unchanged; a present id yields 204, removes exactly that record
(every other record survives, nothing else appears), and afterwards both
`get_task` and a second `delete_task` on the same id yield 404. -/
theorem delete_task_spec (id : String) (st : Store) :
    (findTask st id = none →
      delete_task dynamoTable id st =
        .ok (response 404 (msgObj "Tarefa não encontrada."), st)) ∧
    (∀ t, findTask st id = some t →
      delete_task dynamoTable id st =
        .ok (response 204 (.obj []), deleteItem st id) ∧
      findTask (deleteItem st id) id = none ∧
      get_task dynamoTable id (deleteItem st id) =
        .ok (response 404 (msgObj "Tarefa não encontrada."), deleteItem st id) ∧
      delete_task dynamoTable id (deleteItem st id) =
        .ok (response 404 (msgObj "Tarefa não encontrada."), deleteItem st id) ∧
      (∀ u, u ∈ deleteItem st id ↔ u ∈ st ∧ u.id ≠ id)) := by
  constructor
  · intro h
    simp [delete_task, dynamoTable, h, msgObj]
  · intro t h
    have hgone : findTask (deleteItem st id) id = none := findTask_deleteItem st id
    refine ⟨?_, hgone, ?_, ?_, fun u => mem_deleteItem st id u⟩
    · simp [delete_task, dynamoTable, h]
    · simp [get_task, dynamoTable, hgone, msgObj]
    · simp [delete_task, dynamoTable, hgone, msgObj]

/-- C4 witness: deleting the present id "t1" from a two-task store yields
204 and leaves only the other record; the repeated delete yields 404, as
does a delete on an id never stored. -/
theorem delete_task_spec_witness :
    delete_task dynamoTable "t1" [sampleTask, sampleTask2] =
      .ok (response 204 (.obj []), [sampleTask2]) ∧
    delete_task dynamoTable "t1" [sampleTask2] =
      .ok (response 404 (msgObj "Tarefa não encontrada."), [sampleTask2]) ∧
    delete_task dynamoTable "zz" [sampleTask, sampleTask2] =
      .ok (response 404 (msgObj "Tarefa não encontrada."), [sampleTask, sampleTask2]) := by
  have h := (delete_task_spec "t1" [sampleTask, sampleTask2]).2 sampleTask rfl
  have habs := (delete_task_spec "zz" [sampleTask, sampleTask2]).1 rfl
  refine ⟨?_, ?_, habs⟩
  · have := h.1
    simpa [deleteItem, sampleTask, sampleTask2] using this
  · have := h.2.2.2.1
    simpa [deleteItem, sampleTask, sampleTask2] using this

/-- C6 counterexample: the response builder does not discard the value at
status 204 — passing the empty dict (exactly what `delete_task` passes)
produces the two-character body `"\x7b\x7d"`, not an empty body. -/
theorem response_204_keeps_body :
    (response 204 (Json.obj [])).statusCode = 204 ∧
    (response 204 (Json.obj [])).body = "\x7b\x7d" ∧
    (response 204 (Json.obj [])).body.length = 2 :=
  ⟨rfl, rfl, rfl⟩

/-- C6 amended: `response` serializes the passed value for every status
alike, so the 204 returned by `delete_task` carries the serialization of
the empty dict, the two-character string `"\x7b\x7d"`, rather than an
empty body. -/
theorem delete_204_body (id : String) (st : Store) (t : Task)
    (h : findTask st id = some t) :
    delete_task dynamoTable id st =
      .ok ({ statusCode := 204, headers := stdHeaders, body := "\x7b\x7d" }, deleteItem st id) := by
  have := ((delete_task_spec id st).2 t h).1
  simpa [response, Json.dumps, Json.dumpsObj] using this

/-- C6 amended witness: deleting "t1" from the singleton store returns the
204 envelope whose body is `"\x7b\x7d"`. -/
theorem delete_204_body_witness :
    delete_task dynamoTable "t1" [sampleTask] =
      .ok ({ statusCode := 204, headers := stdHeaders, body := "\x7b\x7d" }, []) := by
  have := delete_204_body "t1" [sampleTask] sampleTask rfl
  simpa [deleteItem, sampleTask] using this

/-- The update field map as the spec words it: whichever of `title`,
`description`, `date` are present as keys in the body, presence (not
truthiness) deciding inclusion. -/
def specFieldMap (body : Body) : List (String × Json) :=
  ["title", "description", "date"].filterMap
    (fun k => (getKey body k).map (fun v => (k, v)))

/-- Applying the built field map to a record sets exactly the present
fields and keeps the others (and the id). -/
lemma applyFields_updateFieldMap (t : Task) (body : Body) :
    applyFields t (updateFieldMap body) =
      { id := t.id,
        title := (getKey body "title").getD t.title,
        description := (getKey body "description").getD t.description,
        date := (getKey body "date").getD t.date } := by
  obtain ⟨i, a, b, c⟩ := t
  rcases h1 : getKey body "title" with _ | v1 <;>
  rcases h2 : getKey body "description" with _ | v2 <;>
  rcases h3 : getKey body "date" with _ | v3 <;>
  simp [updateFieldMap, applyFields, applyField, h1, h2, h3]

/-- C2: the field map built by `update_task` contains exactly the keys of
`title`, `description`, `date` present in the body (so an empty-string
value is still applied), and a successful update of a stored record
changes exactly the supplied fields: each field of the stored (and
returned) record is the body's value when the key is present and the old
value otherwise, the id unchanged. -/
theorem update_task_frame (body : Body) (id : String) (st : Store) (t : Task) :
    updateFieldMap body = specFieldMap body ∧
    ((updateFieldMap body).isEmpty = false → findTask st id = some t →
      update_task dynamoTable id body st =
        .ok (response 200 (taskToJson
              { id := t.id,
                title := (getKey body "title").getD t.title,
                description := (getKey body "description").getD t.description,
                date := (getKey body "date").getD t.date }),
             putItem st
              { id := t.id,
                title := (getKey body "title").getD t.title,
                description := (getKey body "description").getD t.description,
                date := (getKey body "date").getD t.date })) := by
  constructor
  · rcases h1 : getKey body "title" with _ | v1 <;>
    rcases h2 : getKey body "description" with _ | v2 <;>
    rcases h3 : getKey body "date" with _ | v3 <;>
    simp [updateFieldMap, specFieldMap, h1, h2, h3]
  · intro hne hfind
    have happ := applyFields_updateFieldMap t body
    simp [update_task, hne, dynamoTable, hfind, happ]

/-- C2 witness: updating the stored `sampleTask2` (description "2L") with
`\x7b"title": "X"\x7d` yields 200 and changes only the title, and with
`\x7b"description": ""\x7d` the present-but-empty value is still applied. -/
theorem update_task_frame_witness :
    updateFieldMap [("title", Json.str "X")] = specFieldMap [("title", Json.str "X")] ∧
    update_task dynamoTable "t2" [("title", Json.str "X")] [sampleTask2] =
      .ok (response 200 (taskToJson
            { id := "t2", title := .str "X", description := .str "2L", date := .str "2025-12-05" }),
           [{ id := "t2", title := .str "X", description := .str "2L", date := .str "2025-12-05" }]) ∧
    update_task dynamoTable "t2" [("description", Json.str "")] [sampleTask2] =
      .ok (response 200 (taskToJson
            { id := "t2", title := .str "Walk dog", description := .str "", date := .str "2025-12-05" }),
           [{ id := "t2", title := .str "Walk dog", description := .str "", date := .str "2025-12-05" }]) := by
  refine ⟨(update_task_frame [("title", Json.str "X")] "t2" [sampleTask2] sampleTask2).1, ?_, ?_⟩
  · have := (update_task_frame [("title", Json.str "X")] "t2" [sampleTask2] sampleTask2).2 rfl rfl
    simpa [sampleTask2, getKey, putItem] using this
  · have := (update_task_frame [("description", Json.str "")] "t2" [sampleTask2] sampleTask2).2 rfl rfl
    simpa [sampleTask2, getKey, putItem] using this

/-- C3: `update_task` with an empty field map returns 400 with the store
untouched for every table (the adapter is never consulted); any adapter
failure — including the not-found failure — is caught and surfaced as 500
carrying the underlying message; adapter success yields 200 with the full
record the adapter returned; and no outcome of `update_task` is a 404. -/
theorem update_task_errors {σ : Type} (table : TableApi σ) (id : String)
    (body : Body) (st : σ) :
    ((updateFieldMap body).isEmpty = true →
      update_task table id body st =
        .ok (response 400 (msgObj "Nenhum campo para atualizar."), st)) ∧
    (∀ e, (updateFieldMap body).isEmpty = false →
      table.update_item st id (updateFieldMap body) = .error e →
      update_task table id body st =
        .ok (response 500 (msgObj ("Erro ao atualizar: " ++ e)), st)) ∧
    (∀ t2 st2, (updateFieldMap body).isEmpty = false →
      table.update_item st id (updateFieldMap body) = .ok (t2, st2) →
      update_task table id body st = .ok (response 200 (taskToJson t2), st2)) ∧
    (∀ r st2, update_task table id body st = .ok (r, st2) → r.statusCode ≠ 404) := by
  refine ⟨?_, ?_, ?_, ?_⟩
  · intro h
    simp [update_task, h, msgObj]
  · intro e hne herr
    simp [update_task, hne, herr, msgObj]
  · intro t2 st2 hne hok
    simp [update_task, hne, hok]
  · intro r st2 h
    unfold update_task at h
    by_cases hne : (updateFieldMap body).isEmpty
    · simp [hne] at h
      rw [← h.1]
      simp [response]
    · simp [hne] at h
      cases hu : table.update_item st id (updateFieldMap body) with
      | error e =>
          simp [hu] at h
          rw [← h.1]
          simp [response]
      | ok p =>
          simp [hu] at h
          rw [← h.1]
          simp [response]

/-- C3 witness: on the concrete store, an empty body yields 400, updating
an id that is not stored yields 500 with the adapter's not-found message
(never 404), and updating a stored id yields 200 with the full updated
record. -/
theorem update_task_errors_witness :
    update_task dynamoTable "t1" [] ([] : Store) =
      .ok (response 400 (msgObj "Nenhum campo para atualizar."), []) ∧
    update_task dynamoTable "zz" [("title", Json.str "X")] [sampleTask] =
      .ok (response 500 (msgObj
            ("Erro ao atualizar: " ++ "The provided key element does not match the schema")),
           [sampleTask]) ∧
    update_task dynamoTable "t1" [("title", Json.str "X")] [sampleTask] =
      .ok (response 200 (taskToJson
            { id := "t1", title := .str "X", description := .str "", date := .str "2025-12-04" }),
           [{ id := "t1", title := .str "X", description := .str "", date := .str "2025-12-04" }]) := by
  refine ⟨(update_task_errors dynamoTable "t1" [] ([] : Store)).1 rfl, ?_, ?_⟩
  · exact (update_task_errors dynamoTable "zz" [("title", Json.str "X")] [sampleTask]).2.1
      "The provided key element does not match the schema" rfl rfl
  · exact (update_task_errors dynamoTable "t1" [("title", Json.str "X")] [sampleTask]).2.2.1
      { id := "t1", title := .str "X", description := .str "", date := .str "2025-12-04" }
      [{ id := "t1", title := .str "X", description := .str "", date := .str "2025-12-04" }]
      rfl rfl

/-- C1 counterexample: in the body `\x7b"title": 0, "date": "2025-12-04"\x7d`
the `title` key is present and its value is neither missing nor the empty
string, and `date` is present and non-empty, yet `create_task` returns 400
— not the 201 the claim promises for every such body. -/
theorem create_title_zero_400 :
    getKey [("title", Json.num 0), ("date", Json.str "2025-12-04")] "title" =
      some (Json.num 0) ∧
    getKey [("title", Json.num 0), ("date", Json.str "2025-12-04")] "date" =
      some (Json.str "2025-12-04") ∧
    create_task dynamoTable "u1"
        [("title", Json.num 0), ("date", Json.str "2025-12-04")] ([] : Store) =
      .ok (response 400 (msgObj "Campos \x27title\x27 e \x27date\x27 são obrigatórios."), []) :=
  ⟨rfl, rfl, rfl⟩

/-- C1 amended: `create_task` returns 400 exactly when `title` or `date` is
missing or falsy (empty string, 0, false, null, empty array or object);
otherwise it returns 201 whose body is the full created record
`\x7bid, title, description, date\x7d` with the freshly minted id,
`description` defaulting to the empty string when omitted, and exactly that
record is put into the store under key `id` (for a fresh id, the store is
extended by exactly that record). -/
theorem create_task_spec (task_id : String) (body : Body) (st : Store) :
    ((truthyOpt (getKey body "title") = false ∨ truthyOpt (getKey body "date") = false) →
      create_task dynamoTable task_id body st =
        .ok (response 400 (msgObj "Campos \x27title\x27 e \x27date\x27 são obrigatórios."), st)) ∧
    (∀ tv dv, getKey body "title" = some tv → tv.truthy = true →
      getKey body "date" = some dv → dv.truthy = true →
      create_task dynamoTable task_id body st =
        .ok (response 201 (taskToJson
              { id := task_id, title := tv,
                description := orEmpty (getKey body "description"), date := dv }),
             putItem st
              { id := task_id, title := tv,
                description := orEmpty (getKey body "description"), date := dv }) ∧
      (getKey body "description" = none → orEmpty (getKey body "description") = Json.str "") ∧
      (findTask st task_id = none →
        putItem st
            { id := task_id, title := tv,
              description := orEmpty (getKey body "description"), date := dv } =
          st ++ [{ id := task_id, title := tv,
                   description := orEmpty (getKey body "description"), date := dv }])) := by
  constructor
  · intro h
    have hcond : truthyOpt (getKey body "title") = false ∨
        truthyOpt (getKey body "date") = false := h
    simp only [create_task, if_pos hcond, msgObj]
  · intro tv dv htv htruthy hdv hdtruthy
    refine ⟨?_, ?_, ?_⟩
    · simp [create_task, dynamoTable, buildItem, htv, hdv, truthyOpt, htruthy, hdtruthy]
    · intro hd
      simp [orEmpty, hd]
    · intro hfresh
      exact putItem_fresh st _ hfresh

/-- C1 amended witness: a body missing `title` yields 400; the body
`\x7b"title": "Buy milk", "date": "2025-12-04"\x7d` on the empty store
yields 201 with the created record (description defaulted to "") and the
store extended by exactly that record. -/
theorem create_task_spec_witness :
    create_task dynamoTable "u1" [("date", Json.str "2025-12-04")] ([] : Store) =
      .ok (response 400 (msgObj "Campos \x27title\x27 e \x27date\x27 são obrigatórios."), []) ∧
    create_task dynamoTable "u1"
        [("title", Json.str "Buy milk"), ("date", Json.str "2025-12-04")] ([] : Store) =
      .ok (response 201 (taskToJson
            { id := "u1", title := .str "Buy milk", description := .str "",
              date := .str "2025-12-04" }),
           [{ id := "u1", title := .str "Buy milk", description := .str "",
              date := .str "2025-12-04" }]) := by
  constructor
  · exact (create_task_spec "u1" [("date", Json.str "2025-12-04")] ([] : Store)).1
      (Or.inl rfl)
  · have := ((create_task_spec "u1"
      [("title", Json.str "Buy milk"), ("date", Json.str "2025-12-04")] ([] : Store)).2
      (Json.str "Buy milk") (Json.str "2025-12-04") rfl rfl rfl rfl).1
    simpa [getKey, orEmpty, putItem] using this

/-- C10: creation is decided by truthiness, not presence: a `title` or
`date` key carrying any falsy JSON value (null, false, 0, "", [], \x7b\x7d)
is rejected with the same 400 as an absent key, and a falsy `description`
value is stored as the empty string instead of the supplied value. -/
theorem create_task_truthiness (task_id : String) (body : Body) (st : Store) :
    (∀ v, getKey body "title" = some v → v.truthy = false →
      create_task dynamoTable task_id body st =
        .ok (response 400 (msgObj "Campos \x27title\x27 e \x27date\x27 são obrigatórios."), st)) ∧
    (∀ v, getKey body "date" = some v → v.truthy = false →
      create_task dynamoTable task_id body st =
        .ok (response 400 (msgObj "Campos \x27title\x27 e \x27date\x27 são obrigatórios."), st)) ∧
    (∀ tv dv v, getKey body "title" = some tv → tv.truthy = true →
      getKey body "date" = some dv → dv.truthy = true →
      getKey body "description" = some v → v.truthy = false →
      create_task dynamoTable task_id body st =
        .ok (response 201 (taskToJson
              { id := task_id, title := tv, description := .str "", date := dv }),
             putItem st
              { id := task_id, title := tv, description := .str "", date := dv })) := by
  refine ⟨?_, ?_, ?_⟩
  · intro v hv hfalsy
    exact (create_task_spec task_id body st).1 (Or.inl (by simp [truthyOpt, hv, hfalsy]))
  · intro v hv hfalsy
    exact (create_task_spec task_id body st).1 (Or.inr (by simp [truthyOpt, hv, hfalsy]))
  · intro tv dv v htv htruthy hdv hdtruthy hv hfalsy
    have := ((create_task_spec task_id body st).2 tv dv htv htruthy hdv hdtruthy).1
    rw [this]
    simp [orEmpty, hv, hfalsy]

/-- C10 witness: `title: false` is rejected with 400; `date: ""` is
rejected with 400; `description: null` is stored as the empty string. -/
theorem create_task_truthiness_witness :
    create_task dynamoTable "u1"
        [("title", Json.bool false), ("date", Json.str "2025-12-04")] ([] : Store) =
      .ok (response 400 (msgObj "Campos \x27title\x27 e \x27date\x27 são obrigatórios."), []) ∧
    create_task dynamoTable "u1"
        [("title", Json.str "Buy milk"), ("date", Json.str "")] ([] : Store) =
      .ok (response 400 (msgObj "Campos \x27title\x27 e \x27date\x27 são obrigatórios."), []) ∧
    create_task dynamoTable "u1"
        [("title", Json.str "Buy milk"), ("description", Json.null),
         ("date", Json.str "2025-12-04")] ([] : Store) =
      .ok (response 201 (taskToJson
            { id := "u1", title := .str "Buy milk", description := .str "",
              date := .str "2025-12-04" }),
           [{ id := "u1", title := .str "Buy milk", description := .str "",
              date := .str "2025-12-04" }]) := by
  refine ⟨?_, ?_, ?_⟩
  · exact (create_task_truthiness "u1"
      [("title", Json.bool false), ("date", Json.str "2025-12-04")] ([] : Store)).1
      (Json.bool false) rfl rfl
  · exact (create_task_truthiness "u1"
      [("title", Json.str "Buy milk"), ("date", Json.str "")] ([] : Store)).2.1
      (Json.str "") rfl rfl
  · have := (create_task_truthiness "u1"
      [("title", Json.str "Buy milk"), ("description", Json.null),
       ("date", Json.str "2025-12-04")] ([] : Store)).2.2
      (Json.str "Buy milk") (Json.str "2025-12-04") Json.null rfl rfl rfl rfl rfl rfl
    simpa [putItem] using this

/-- C5: on the `GET /tasks` route, a query map without the `date` key
yields 200 with every stored task; a `date` key with a non-empty value
yields 200 with exactly the stored tasks whose `date` field is the equal
string; a `date` key present with the empty value yields 400. -/
theorem list_tasks_spec (jl : String → Option Body) (fid : String)
    (pp qpo : Option (List (String × String))) (bs : Option String) (st : Store) :
    (hasKeyStr (qpo.getD []) "date" = false →
      lambda_handler dynamoTable jl fid ⟨some "GET /tasks", pp, qpo, bs⟩ st =
        (response 200 (.arr (st.map taskToJson)), st)) ∧
    (∀ d, lookupStr (qpo.getD []) "date" = some d → d ≠ "" →
      lambda_handler dynamoTable jl fid ⟨some "GET /tasks", pp, qpo, bs⟩ st =
        (response 200 (.arr ((st.filter (fun t => jsonEqStr t.date d)).map taskToJson)), st)) ∧
    (lookupStr (qpo.getD []) "date" = some "" →
      lambda_handler dynamoTable jl fid ⟨some "GET /tasks", pp, qpo, bs⟩ st =
        (response 400 (msgObj "Parâmetro \x27date\x27 é obrigatório. Ex: /tasks?date=2025-12-04"), st)) := by
  refine ⟨?_, ?_, ?_⟩
  · intro h
    simp [lambda_handler, dispatch, h, dynamoTable]
  · intro d hl hne
    obtain ⟨hk, hemp⟩ := lookupStr_some_facts _ _ _ hl
    have hqd : queryDate (qpo.getD []) = some d := by
      simp [queryDate, hemp, hl]
    simp [lambda_handler, dispatch, hk, get_tasks_by_date, hqd, truthyStrOpt, hne,
      dynamoTable]
  · intro hl
    obtain ⟨hk, hemp⟩ := lookupStr_some_facts _ _ _ hl
    have hqd : queryDate (qpo.getD []) = some "" := by
      simp [queryDate, hemp, hl]
    simp [lambda_handler, dispatch, hk, get_tasks_by_date, hqd, truthyStrOpt, msgObj]

/-- C5 witness: on a two-task store (dates 2025-12-04 and 2025-12-05), no
query parameters list both tasks, `date=2025-12-04` lists exactly the
first, and `date=` (present but empty) yields 400. -/
theorem list_tasks_spec_witness :
    lambda_handler dynamoTable (fun _ => none) "u1"
        ⟨some "GET /tasks", none, none, none⟩ [sampleTask, sampleTask2] =
      (response 200 (.arr [taskToJson sampleTask, taskToJson sampleTask2]),
       [sampleTask, sampleTask2]) ∧
    lambda_handler dynamoTable (fun _ => none) "u1"
        ⟨some "GET /tasks", none, some [("date", "2025-12-04")], none⟩ [sampleTask, sampleTask2] =
      (response 200 (.arr [taskToJson sampleTask]), [sampleTask, sampleTask2]) ∧
    lambda_handler dynamoTable (fun _ => none) "u1"
        ⟨some "GET /tasks", none, some [("date", "")], none⟩ [sampleTask, sampleTask2] =
      (response 400 (msgObj "Parâmetro \x27date\x27 é obrigatório. Ex: /tasks?date=2025-12-04"),
       [sampleTask, sampleTask2]) := by
  refine ⟨?_, ?_, ?_⟩
  · have := (list_tasks_spec (fun _ => none) "u1" none none none
      [sampleTask, sampleTask2]).1 rfl
    simpa using this
  · have := (list_tasks_spec (fun _ => none) "u1" none (some [("date", "2025-12-04")]) none
      [sampleTask, sampleTask2]).2.1 "2025-12-04" rfl (by decide)
    simpa [sampleTask, sampleTask2, jsonEqStr] using this
  · exact (list_tasks_spec (fun _ => none) "u1" none (some [("date", "")]) none
      [sampleTask, sampleTask2]).2.2 rfl

/-- C8: a request body string that `json.loads` rejects is silently
degraded to the empty dict: the handler behaves exactly as if no body had
been sent (malformed JSON is never itself an error), so a PUT with a valid
id and malformed body takes the 400 "nothing to update" path and a POST
with malformed body takes the 400 missing-fields path. -/
theorem malformed_body_spec {σ : Type} (table : TableApi σ)
    (jl : String → Option Body) (fid : String) (event : Event) (s : String)
    (st : σ) (hb : event.body = some s) (hp : jl s = none) :
    lambda_handler table jl fid event st =
      lambda_handler table jl fid
        ⟨event.routeKey, event.pathParameters, event.queryStringParameters, none⟩ st ∧
    (event.routeKey = some "PUT /tasks/\x7bid\x7d" →
      ∀ pid, lookupStr (event.pathParameters.getD []) "id" = some pid → pid ≠ "" →
      lambda_handler table jl fid event st =
        (response 400 (msgObj "Nenhum campo para atualizar."), st)) ∧
    (event.routeKey = some "POST /tasks" →
      lambda_handler table jl fid event st =
        (response 400 (msgObj "Campos \x27title\x27 e \x27date\x27 são obrigatórios."), st)) := by
  have hbody : parseBody jl event = [] := by
    by_cases hse : s = ""
    · simp [parseBody, hb, hse]
    · simp [parseBody, hb, hse, hp]
  refine ⟨?_, ?_, ?_⟩
  · simp only [lambda_handler]
    rw [hbody]
    have hnone : parseBody jl
        ⟨event.routeKey, event.pathParameters, event.queryStringParameters, none⟩ = [] := rfl
    rw [hnone]
  · intro hroute pid hpid hpne
    simp [lambda_handler, hbody, dispatch, hroute, hpid, hpne, update_task,
      updateFieldMap, getKey, msgObj]
  · intro hroute
    simp [lambda_handler, hbody, dispatch, hroute, create_task, getKey, truthyOpt, msgObj]

/-- C8 witness: with a parser rejecting the string "\x7bnot json", a PUT on
id "t1" behaves as the empty body (400 nothing-to-update) and equals the
bodiless request, and a POST yields the 400 missing-fields response. -/
theorem malformed_body_spec_witness :
    lambda_handler dynamoTable (fun _ => none) "u1"
        ⟨some "PUT /tasks/\x7bid\x7d", some [("id", "t1")], none, some "\x7bnot json"⟩
        [sampleTask] =
      lambda_handler dynamoTable (fun _ => none) "u1"
        ⟨some "PUT /tasks/\x7bid\x7d", some [("id", "t1")], none, none⟩ [sampleTask] ∧
    lambda_handler dynamoTable (fun _ => none) "u1"
        ⟨some "PUT /tasks/\x7bid\x7d", some [("id", "t1")], none, some "\x7bnot json"⟩
        [sampleTask] =
      (response 400 (msgObj "Nenhum campo para atualizar."), [sampleTask]) ∧
    lambda_handler dynamoTable (fun _ => none) "u1"
        ⟨some "POST /tasks", none, none, some "\x7bnot json"⟩ [sampleTask] =
      (response 400 (msgObj "Campos \x27title\x27 e \x27date\x27 são obrigatórios."), [sampleTask]) := by
  have h1 := malformed_body_spec dynamoTable (fun _ => none) "u1"
    ⟨some "PUT /tasks/\x7bid\x7d", some [("id", "t1")], none, some "\x7bnot json"⟩
    "\x7bnot json" [sampleTask] rfl rfl
  have h2 := malformed_body_spec dynamoTable (fun _ => none) "u1"
    ⟨some "POST /tasks", none, none, some "\x7bnot json"⟩
    "\x7bnot json" [sampleTask] rfl rfl
  exact ⟨h1.1, h1.2.1 rfl "t1" rfl (by decide), h2.2.2 rfl⟩

/-- Every non-exceptional outcome of `create_task` is built by `response`
and so carries the fixed headers. -/
lemma create_task_ok_headers {σ : Type} (table : TableApi σ) (tid : String)
    (body : Body) (st : σ) (r : Resp) (st2 : σ)
    (h : create_task table tid body st = .ok (r, st2)) : r.headers = stdHeaders := by
  unfold create_task at h
  split at h
  · simp at h
    rw [← h.1]; rfl
  · split at h
    · simp at h
    · simp at h
      rw [← h.1]; rfl

/-- Every non-exceptional outcome of `get_task` carries the fixed headers. -/
lemma get_task_ok_headers {σ : Type} (table : TableApi σ) (tid : String)
    (st : σ) (r : Resp) (st2 : σ)
    (h : get_task table tid st = .ok (r, st2)) : r.headers = stdHeaders := by
  unfold get_task at h
  split at h
  · simp at h
  · simp at h
    rw [← h.1]; rfl
  · simp at h
    rw [← h.1]; rfl

/-- Every non-exceptional outcome of `update_task` carries the fixed
headers. -/
lemma update_task_ok_headers {σ : Type} (table : TableApi σ) (tid : String)
    (body : Body) (st : σ) (r : Resp) (st2 : σ)
    (h : update_task table tid body st = .ok (r, st2)) : r.headers = stdHeaders := by
  unfold update_task at h
  split at h
  · simp at h
    rw [← h.1]; rfl
  · split at h
    · simp at h
      rw [← h.1]; rfl
    · simp at h
      rw [← h.1]; rfl

/-- Every non-exceptional outcome of `delete_task` carries the fixed
headers. -/
lemma delete_task_ok_headers {σ : Type} (table : TableApi σ) (tid : String)
    (st : σ) (r : Resp) (st2 : σ)
    (h : delete_task table tid st = .ok (r, st2)) : r.headers = stdHeaders := by
  unfold delete_task at h
  split at h
  · simp at h
  · simp at h
    rw [← h.1]; rfl
  · split at h
    · simp at h
    · simp at h
      rw [← h.1]; rfl

/-- Every non-exceptional outcome of `get_tasks_by_date` carries the fixed
headers. -/
lemma get_tasks_by_date_ok_headers {σ : Type} (table : TableApi σ)
    (qp : List (String × String)) (st : σ) (r : Resp) (st2 : σ)
    (h : get_tasks_by_date table qp st = .ok (r, st2)) : r.headers = stdHeaders := by
  unfold get_tasks_by_date at h
  split at h
  · simp at h
    rw [← h.1]; rfl
  · split at h
    · simp at h
    · simp at h
      rw [← h.1]; rfl

/-- Every non-exceptional outcome of `dispatch` carries the fixed
headers. -/
lemma dispatch_ok_headers {σ : Type} (table : TableApi σ) (fid : String)
    (rk : Option String) (pp qp : List (String × String)) (body : Body)
    (st : σ) (r : Resp) (st2 : σ)
    (h : dispatch table fid rk pp qp body st = .ok (r, st2)) : r.headers = stdHeaders := by
  unfold dispatch at h
  split at h
  · exact create_task_ok_headers table fid body st r st2 h
  · split at h
    · split at h
      · simp at h
        rw [← h.1]; rfl
      · split at h
        · simp at h
          rw [← h.1]; rfl
        · exact get_task_ok_headers table _ st r st2 h
    · split at h
      · split at h
        · simp at h
          rw [← h.1]; rfl
        · split at h
          · simp at h
            rw [← h.1]; rfl
          · exact update_task_ok_headers table _ body st r st2 h
      · split at h
        · split at h
          · simp at h
            rw [← h.1]; rfl
          · split at h
            · simp at h
              rw [← h.1]; rfl
            · exact delete_task_ok_headers table _ st r st2 h
        · split at h
          · split at h
            · exact get_tasks_by_date_ok_headers table qp st r st2 h
            · split at h
              · simp at h
              · simp at h
                rw [← h.1]; rfl
          · simp at h
            rw [← h.1]; rfl

/-- C9: for every table, parser and event, the handler returns a
well-formed envelope with the JSON/CORS headers; an unrecognized
method+path yields the 404 route-not-found response; a missing (or empty)
`id` on an `\x7bid\x7d` route yields 400; and a dispatch that raises (any
`Except.error`, from any operation) is caught and converted to the 500
response carrying the failure's message. -/
theorem handler_total_spec {σ : Type} (table : TableApi σ)
    (jl : String → Option Body) (fid : String) (event : Event) (st : σ) :
    ((lambda_handler table jl fid event st).1.headers = stdHeaders) ∧
    ((event.routeKey ≠ some "POST /tasks" ∧ event.routeKey ≠ some "GET /tasks/\x7bid\x7d" ∧
      event.routeKey ≠ some "PUT /tasks/\x7bid\x7d" ∧
      event.routeKey ≠ some "DELETE /tasks/\x7bid\x7d" ∧ event.routeKey ≠ some "GET /tasks") →
      lambda_handler table jl fid event st =
        (response 404 (msgObj "Rota não encontrada."), st)) ∧
    ((event.routeKey = some "GET /tasks/\x7bid\x7d" ∨
      event.routeKey = some "PUT /tasks/\x7bid\x7d" ∨
      event.routeKey = some "DELETE /tasks/\x7bid\x7d") →
      truthyStrOpt (lookupStr (event.pathParameters.getD []) "id") = false →
      lambda_handler table jl fid event st =
        (response 400 (msgObj "Parâmetro \x27id\x27 é obrigatório."), st)) ∧
    (∀ e, dispatch table fid event.routeKey (event.pathParameters.getD [])
        (event.queryStringParameters.getD []) (parseBody jl event) st = .error e →
      lambda_handler table jl fid event st =
        (response 500 (msgObj ("Erro interno: " ++ e)), st)) := by
  refine ⟨?_, ?_, ?_, ?_⟩
  · unfold lambda_handler
    cases hd : dispatch table fid event.routeKey (event.pathParameters.getD [])
        (event.queryStringParameters.getD []) (parseBody jl event) st with
    | error e => rfl
    | ok p => exact dispatch_ok_headers table fid _ _ _ _ st p.1 p.2 (by rw [hd])
  · intro h
    simp [lambda_handler, dispatch, h.1, h.2.1, h.2.2.1, h.2.2.2.1, h.2.2.2.2, msgObj]
  · intro hroute hid
    rcases hl : lookupStr (event.pathParameters.getD []) "id" with _ | pid
    · rcases hroute with h | h | h <;>
        simp [lambda_handler, dispatch, h, hl, msgObj]
    · rw [hl] at hid
      have hempty : pid = "" := by
        simpa [truthyStrOpt] using hid
      rcases hroute with h | h | h <;>
        simp [lambda_handler, dispatch, h, hl, hempty, msgObj]
  · intro e he
    simp [lambda_handler, he, msgObj]

/-- A table whose scan raises, used to exercise the catch-all concretely. -/
def failTable : TableApi Store :=
  { dynamoTable with scan := fun _ => .error "boom" }

/-- C9 witness: a request with an unknown route gets the well-formed 404
envelope; a `GET /tasks/\x7bid\x7d` request without path parameters gets
400; and with the raising table a `GET /tasks` request gets the 500
envelope carrying the exception message. -/
theorem handler_total_spec_witness :
    (lambda_handler dynamoTable (fun _ => none) "u1"
        ⟨some "PATCH /tasks", none, none, none⟩ ([] : Store)).1.headers = stdHeaders ∧
    lambda_handler dynamoTable (fun _ => none) "u1"
        ⟨some "PATCH /tasks", none, none, none⟩ ([] : Store) =
      (response 404 (msgObj "Rota não encontrada."), []) ∧
    lambda_handler dynamoTable (fun _ => none) "u1"
        ⟨some "GET /tasks/\x7bid\x7d", none, none, none⟩ ([] : Store) =
      (response 400 (msgObj "Parâmetro \x27id\x27 é obrigatório."), []) ∧
    lambda_handler failTable (fun _ => none) "u1"
        ⟨some "GET /tasks", none, none, none⟩ ([] : Store) =
      (response 500 (msgObj ("Erro interno: " ++ "boom")), []) := by
  refine ⟨?_, ?_, ?_, ?_⟩
  · exact (handler_total_spec dynamoTable (fun _ => none) "u1"
      ⟨some "PATCH /tasks", none, none, none⟩ ([] : Store)).1
  · exact (handler_total_spec dynamoTable (fun _ => none) "u1"
      ⟨some "PATCH /tasks", none, none, none⟩ ([] : Store)).2.1
      (by refine ⟨?_, ?_, ?_, ?_, ?_⟩ <;> decide)
  · exact (handler_total_spec dynamoTable (fun _ => none) "u1"
      ⟨some "GET /tasks/\x7bid\x7d", none, none, none⟩ ([] : Store)).2.2.1
      (Or.inl rfl) rfl
  · exact (handler_total_spec failTable (fun _ => none) "u1"
      ⟨some "GET /tasks", none, none, none⟩ ([] : Store)).2.2.2 "boom" rfl

end CrudM3
